import Mathlib

/-!
Verification of the `/send_api` request handler of `src/app.py`.

The handler is embedded as a pure Lean function `App.send_api`,
parametrized by:
* the configured API key (`Option String`, mirroring `os.getenv`),
* an article-extraction oracle (`String → ExtractResult`) standing for the
  `newspaper.Article` download/parse pipeline, which either yields the
  extracted text or raises an exception,
* an LLM oracle (`String → LLMResult`) standing for
  `client.chat.completions.create`, which either returns a response
  (whose `choices[0].message` may be missing and whose `content` field is
  `Optional[str]`), raises `RateLimitError`, or raises another exception,
* the parsed JSON body (`Option Req`; `none` stands for a null/absent body).

The returned `Response` records the HTTP status, the JSON body, and — so
that the claims about data flow can be stated — the URL actually handed to
the extractor and the prompt actually handed to the LLM (each `none` when
the corresponding external call was never made).
-/

namespace App

/-- The three optional string fields of the JSON request body
`{ text?, url?, context? }`. -/
structure Req where
  url : Option String := none
  text : Option String := none
  context : Option String := none
deriving DecidableEq

/-- Outcome of `Article(url).download(); article.parse()`:
either the extracted `article.text`, or an exception with message `msg`. -/
inductive ExtractResult where
  | ok (text : String)
  | exn (msg : String)
deriving DecidableEq

/-- Outcome of `client.chat.completions.create`:
`ok none` models a completion with no choices (or a falsy `message`),
`ok (some c)` models `choices[0].message` present with `content = c`
(the SDK's `content` is `Optional[str]`), `rateLimit` models
`RateLimitError`, and `exn` any other exception. -/
inductive LLMResult where
  | ok (message : Option (Option String))
  | rateLimit (msg : String)
  | exn (msg : String)
deriving DecidableEq

/-- JSON response body: `{message, processed_text}` on success
(`processed_text` may be JSON null), `{error}` on failure. -/
inductive Body where
  | success (message : String) (processed_text : Option String)
  | failure (error : String)
deriving DecidableEq

/-- HTTP response, instrumented with the URL passed to the extractor and
the prompt passed to the LLM (`none` when that call never happened). -/
structure Response where
  status : Nat
  body : Body
  extractedUrl : Option String
  llmPrompt : Option String
deriving DecidableEq

/-- `"OpenRouter API key is not configured on the server."` -/
def noKeyError : String := "OpenRouter API key is not configured on the server."

/-- Mock-path `message` field. -/
def mockMessage : String := "This is a mock response."

/-- Mock-path `processed_text` field. -/
def mockProcessedText : String :=
  "これはモック（偽の）応答です。API制限を消費せずに開発を続けるために使用します。UIの動作確認にご利用ください。"

/-- Error body when extraction yields blank text. -/
def extractEmptyError : String :=
  "URLから本文を抽出できませんでした。記事形式のページでない可能性があります。"

/-- Error body when extraction raises. -/
def extractExnError : String := "URLの処理中に予期せぬエラーが発生しました。"

/-- Error body when both `url` and `text` are unusable. -/
def missingInputError : String := "要約するテキストまたはURLを入力してください。"

/-- Default system prompt. -/
def defaultSystemPrompt : String := "あなたは役立つアシスタントです。"

/-- `message` field of a successful summarization response. -/
def successMessage : String := "AIによってデータが処理されました。"

/-- Placeholder `processed_text` when the completion has no choices/message. -/
def noContentPlaceholder : String := "AIから有効な応答がありませんでした。"

/-- Error body for `RateLimitError`. -/
def rateLimitErrorMsg : String :=
  "APIの利用回数制限に達しました。時間をおいてから再度お試しください。"

/-- Generic error body for any other exception from the LLM call. -/
def genericLLMError : String := "AIサービスとの通信中にエラーが発生しました。"

/-- Python truthiness of an optional string: `None` and `""` are falsy. -/
def pyTruthy : Option String → Bool
  | none => false
  | some s => s != ""

/-- Python's `str.strip()`: remove leading and trailing whitespace. -/
def pyStrip (s : String) : String :=
  ⟨(((s.data.dropWhile Char.isWhitespace).reverse.dropWhile
      Char.isWhitespace).reverse)⟩

/-- `'f' in data and data['f'].strip()`: the field is present and
non-blank after stripping. -/
def nonblank : Option String → Bool
  | none => false
  | some s => pyStrip s != ""

/-- The system prompt chosen by lines 111–116 of `app.py`: the stripped
`context` when present, truthy and non-blank, else the default. -/
def systemPromptOf (d : Req) : String :=
  match d.context with
  | some c => if c != "" && pyStrip c != "" then pyStrip c else defaultSystemPrompt
  | none => defaultSystemPrompt

/-- `full_prompt = f"{system_prompt}\n\n---\n\n{received_text}"` (line 125). -/
def fullPromptOf (d : Req) (received_text : String) : String :=
  systemPromptOf d ++ "\n\n---\n\n" ++ received_text

/-- The `try`-block around the chat-completion call (lines 118–149):
issue the call with `prompt` and map its outcome to a response.
`eu` is the URL the extractor was called with earlier, if any. -/
def callLLM (llm : String → LLMResult) (eu : Option String) (prompt : String) :
    Response :=
  match llm prompt with
  | .ok (some content) => ⟨200, .success successMessage content, eu, some prompt⟩
  | .ok none => ⟨200, .success successMessage (some noContentPlaceholder), eu, some prompt⟩
  | .rateLimit _ => ⟨429, .failure rateLimitErrorMsg, eu, some prompt⟩
  | .exn _ => ⟨500, .failure genericLLMError, eu, some prompt⟩

/-- The `send_api` handler of `app.py` (lines 51–149). -/
def send_api (apiKey : Option String) (extract : String → ExtractResult)
    (llm : String → LLMResult) (data : Option Req) : Response :=
  if !pyTruthy apiKey then
    ⟨500, .failure noKeyError, none, none⟩
  else
    match data with
    | none =>
      -- `data` falsy: the mock, url and text branches all fail.
      ⟨400, .failure missingInputError, none, none⟩
    | some d =>
      if d.text == some "DEBUG_MOCK" then
        ⟨200, .success mockMessage (some mockProcessedText), none, none⟩
      else if nonblank d.url then
        -- `url = data['url'].strip()`, inlined
        match extract (pyStrip (d.url.getD "")) with
        | .ok t =>
          if pyStrip t == "" then
            ⟨400, .failure extractEmptyError, some (pyStrip (d.url.getD "")), none⟩
          else
            callLLM llm (some (pyStrip (d.url.getD ""))) (fullPromptOf d t)
        | .exn _ =>
          ⟨500, .failure extractExnError, some (pyStrip (d.url.getD "")), none⟩
      else if nonblank d.text then
        callLLM llm none (fullPromptOf d (d.text.getD ""))
      else
        ⟨400, .failure missingInputError, none, none⟩

/-! Stub oracles used to instantiate the theorems on concrete requests. -/

/-- Extractor stub that always extracts a fixed non-empty article body. -/
def exArt : String → ExtractResult := fun _ => .ok "ARTICLE BODY"

/-- Extractor stub that extracts whitespace-only text. -/
def exEmpty : String → ExtractResult := fun _ => .ok "  "

/-- Extractor stub that always raises. -/
def exBoom : String → ExtractResult := fun _ => .exn "boom"

/-- LLM stub returning a message with string content. -/
def llmEcho : String → LLMResult := fun _ => .ok (some (some "SUMMARY"))

/-- LLM stub returning a completion with no choices/message. -/
def llmNothing : String → LLMResult := fun _ => .ok none

/-- LLM stub returning a message whose `content` is null. -/
def llmNullContent : String → LLMResult := fun _ => .ok (some none)

/-- LLM stub raising `RateLimitError`. -/
def llmRL : String → LLMResult := fun _ => .rateLimit "quota"

/-- LLM stub raising a non-rate-limit exception. -/
def llmBoom : String → LLMResult := fun _ => .exn "connection reset"

/-- The prompt recorded by `callLLM` is always the prompt it was given. -/
theorem callLLM_llmPrompt (llm : String → LLMResult) (eu : Option String)
    (p : String) : (callLLM llm eu p).llmPrompt = some p := by
  unfold callLLM
  rcases llm p with (_ | _) | _ | _ <;> rfl

/-- Inversion: if the handler recorded an LLM prompt `p`, the request body was
some `d`, `p` is the full prompt built from `d` and some received text, and the
response is exactly the one `callLLM` produced for `p`. -/
theorem send_api_reach (k : Option String) (ex : String → ExtractResult)
    (llm : String → LLMResult) (data : Option Req) (p : String)
    (h : (send_api k ex llm data).llmPrompt = some p) :
    ∃ d rt, data = some d ∧ p = fullPromptOf d rt ∧
      ∃ eu, send_api k ex llm data = callLLM llm eu p := by
  unfold send_api at h ⊢
  split at h
  · simp at h
  · split at h
    · simp at h
    · rename_i d
      split at h
      · simp at h
      · split at h
        · split at h
          · rename_i t hext
            split at h
            · simp at h
            · rw [callLLM_llmPrompt] at h
              obtain rfl := Option.some_injective _ h
              refine ⟨d, t, rfl, rfl, some (pyStrip (d.url.getD "")), ?_⟩
              simp_all
          · simp at h
        · split at h
          · rw [callLLM_llmPrompt] at h
            obtain rfl := Option.some_injective _ h
            refine ⟨d, d.text.getD "", rfl, rfl, none, ?_⟩
            simp_all
          · simp at h

/-- A blank-or-missing field can never equal the `"DEBUG_MOCK"` sentinel. -/
theorem nonblank_ne_mock {o : Option String} (h : nonblank o = false) :
    o ≠ some "DEBUG_MOCK" := by
  rintro rfl
  simp [nonblank, pyStrip] at h

/-- Any prompt the handler sends to the LLM begins with the stripped `context`
when that field is non-blank, and with the default instruction when it is
absent. -/
theorem context_prefix_of_reach (k : Option String) (ex : String → ExtractResult)
    (llm : String → LLMResult) (d : Req) (p : String)
    (hreach : (send_api k ex llm (some d)).llmPrompt = some p) :
    (∀ c, d.context = some c → pyStrip c ≠ "" → ∃ r, p = pyStrip c ++ r) ∧
    (d.context = none → ∃ r, p = defaultSystemPrompt ++ r) := by
  obtain ⟨d', rt, hd, rfl, -, -⟩ := send_api_reach k ex llm (some d) p hreach
  obtain rfl := Option.some_injective _ hd.symm
  constructor
  · intro c hc hcs
    have hcne : c ≠ "" := by
      rintro rfl
      exact hcs rfl
    refine ⟨"\n\n---\n\n" ++ rt, ?_⟩
    rw [fullPromptOf, systemPromptOf, hc]
    simp [hcne, hcs, String.append_assoc]
  · intro hc
    refine ⟨"\n\n---\n\n" ++ rt, ?_⟩
    rw [fullPromptOf, systemPromptOf, hc, String.append_assoc]

/-- C1: for a request with a non-blank `url` whose extraction succeeds with
non-blank text, the text forwarded to the summarization step (the part of the
prompt after the system instruction) is the extracted article text, not the
raw `text` field — a usable `url` takes precedence over `text`. -/
theorem claim_C1 (k : String) (ex : String → ExtractResult)
    (llm : String → LLMResult) (d : Req) (u t : String)
    (hk : k ≠ "") (hmock : d.text ≠ some "DEBUG_MOCK")
    (hurl : d.url = some u) (hu : pyStrip u ≠ "")
    (hex : ex (pyStrip u) = .ok t) (ht : pyStrip t ≠ "") :
    (send_api (some k) ex llm (some d)).llmPrompt =
      some (systemPromptOf d ++ "\n\n---\n\n" ++ t) := by
  simp [send_api, pyTruthy, hk, hmock, nonblank, hurl, hu, hex, ht,
    callLLM_llmPrompt, fullPromptOf]

/-- C1 witness: a request carrying both `url` and `text` forwards the
extracted article body, not `"raw"`. -/
theorem claim_C1_witness :
    (send_api (some "k") exArt llmEcho
        (some ⟨some " http://a ", some "raw", none⟩)).llmPrompt =
      some (systemPromptOf ⟨some " http://a ", some "raw", none⟩ ++
        "\n\n---\n\n" ++ "ARTICLE BODY") :=
  claim_C1 "k" exArt llmEcho ⟨some " http://a ", some "raw", none⟩
    " http://a " "ARTICLE BODY" (by decide) (by decide) rfl (by decide) rfl
    (by decide)

/-- C2: with the API key configured, `text == "DEBUG_MOCK"` always returns the
fixed 200 mock payload, whatever `url` and `context` hold and whatever the two
external services would do, and neither extraction nor the LLM is called. -/
theorem claim_C2 (k : String) (ex : String → ExtractResult)
    (llm : String → LLMResult) (d : Req)
    (hk : k ≠ "") (hmock : d.text = some "DEBUG_MOCK") :
    send_api (some k) ex llm (some d) =
      ⟨200, .success mockMessage (some mockProcessedText), none, none⟩ := by
  simp [send_api, pyTruthy, hk, hmock]

/-- C2 witness: the mock sentinel wins even with a `url` and a `context`. -/
theorem claim_C2_witness :
    send_api (some "k") exArt llmEcho
        (some ⟨some "http://a", some "DEBUG_MOCK", some "ctx"⟩) =
      ⟨200, .success mockMessage (some mockProcessedText), none, none⟩ :=
  claim_C2 "k" exArt llmEcho ⟨some "http://a", some "DEBUG_MOCK", some "ctx"⟩
    (by decide) rfl

/-- C3: with no API key configured, every request — including the
`"DEBUG_MOCK"` sentinel — returns 500 with the configuration error, and
neither extraction nor the LLM call is attempted. -/
theorem claim_C3 (ex : String → ExtractResult) (llm : String → LLMResult)
    (data : Option Req) :
    send_api none ex llm data = ⟨500, .failure noKeyError, none, none⟩ := by
  simp [send_api, pyTruthy]

/-- C4: when the body is null, or both `url` and `text` are missing or blank
after stripping, the response is 400 with the localized error message. -/
theorem claim_C4 (k : String) (ex : String → ExtractResult)
    (llm : String → LLMResult) (data : Option Req) (hk : k ≠ "")
    (h : data = none ∨
      ∃ d, data = some d ∧ nonblank d.url = false ∧ nonblank d.text = false) :
    send_api (some k) ex llm data =
      ⟨400, .failure missingInputError, none, none⟩ := by
  rcases h with rfl | ⟨d, rfl, hu, ht⟩
  · simp [send_api, pyTruthy, hk]
  · have hm := nonblank_ne_mock ht
    simp [send_api, pyTruthy, hk, hm, hu, ht]

/-- C4 witness: a whitespace `url` and an empty `text` yield the 400 error. -/
theorem claim_C4_witness :
    send_api (some "k") exArt llmEcho (some ⟨some "   ", some "", none⟩) =
      ⟨400, .failure missingInputError, none, none⟩ :=
  claim_C4 "k" exArt llmEcho (some ⟨some "   ", some "", none⟩) (by decide)
    (Or.inr ⟨⟨some "   ", some "", none⟩, rfl, by decide, by decide⟩)

/-- C5: for a request with a non-blank `url` (off the mock path), extraction
completing with blank text yields 400 with the extraction error, and an
extraction exception yields 500; in neither case is the LLM called. -/
theorem claim_C5 (k : String) (ex : String → ExtractResult)
    (llm : String → LLMResult) (d : Req) (u : String)
    (hk : k ≠ "") (hmock : d.text ≠ some "DEBUG_MOCK")
    (hurl : d.url = some u) (hu : pyStrip u ≠ "") :
    (∀ t, ex (pyStrip u) = .ok t → pyStrip t = "" →
      send_api (some k) ex llm (some d) =
        ⟨400, .failure extractEmptyError, some (pyStrip u), none⟩) ∧
    (∀ m, ex (pyStrip u) = .exn m →
      send_api (some k) ex llm (some d) =
        ⟨500, .failure extractExnError, some (pyStrip u), none⟩) := by
  constructor
  · intro t hex ht
    simp [send_api, pyTruthy, hk, hmock, nonblank, hurl, hu, hex, ht]
  · intro m hex
    simp [send_api, pyTruthy, hk, hmock, nonblank, hurl, hu, hex]

/-- C5 witness: a whitespace-only extraction gives 400, a raising extractor
gives 500, and the LLM prompt stays `none` in both. -/
theorem claim_C5_witness :
    send_api (some "k") exEmpty llmEcho (some ⟨some " u ", none, none⟩) =
      ⟨400, .failure extractEmptyError, some (pyStrip " u "), none⟩ ∧
    send_api (some "k") exBoom llmEcho (some ⟨some " u ", none, none⟩) =
      ⟨500, .failure extractExnError, some (pyStrip " u "), none⟩ :=
  ⟨(claim_C5 "k" exEmpty llmEcho ⟨some " u ", none, none⟩ " u " (by decide)
      (by decide) rfl (by decide)).1 "  " rfl (by decide),
   (claim_C5 "k" exBoom llmEcho ⟨some " u ", none, none⟩ " u " (by decide)
      (by decide) rfl (by decide)).2 "boom" rfl⟩

/-- C6: for any request that reaches the summarization call, a
`RateLimitError` yields 429 with the localized rate-limit message, and any
other exception yields 500 whose error body is the fixed generic constant
`genericLLMError`, independent of the exception's own text. -/
theorem claim_C6 (k : Option String) (ex : String → ExtractResult)
    (llm : String → LLMResult) (data : Option Req) (p : String)
    (hreach : (send_api k ex llm data).llmPrompt = some p) :
    (∀ m, llm p = .rateLimit m →
      (send_api k ex llm data).status = 429 ∧
      (send_api k ex llm data).body = .failure rateLimitErrorMsg) ∧
    (∀ m, llm p = .exn m →
      (send_api k ex llm data).status = 500 ∧
      (send_api k ex llm data).body = .failure genericLLMError) := by
  obtain ⟨d, rt, rfl, rfl, eu, heq⟩ := send_api_reach k ex llm data p hreach
  rw [heq]
  constructor
  · intro m hm
    simp [callLLM, hm]
  · intro m hm
    simp [callLLM, hm]

/-- C6 witness: a rate-limited stub gives 429, a raising stub gives the fixed
generic 500 body. -/
theorem claim_C6_witness :
    ((send_api (some "k") exArt llmRL (some ⟨none, some "hi", none⟩)).status = 429 ∧
      (send_api (some "k") exArt llmRL (some ⟨none, some "hi", none⟩)).body =
        .failure rateLimitErrorMsg) ∧
    ((send_api (some "k") exArt llmBoom (some ⟨none, some "hi", none⟩)).status = 500 ∧
      (send_api (some "k") exArt llmBoom (some ⟨none, some "hi", none⟩)).body =
        .failure genericLLMError) :=
  ⟨(claim_C6 (some "k") exArt llmRL (some ⟨none, some "hi", none⟩)
      (defaultSystemPrompt ++ "\n\n---\n\n" ++ "hi") (by decide)).1 "quota" rfl,
   (claim_C6 (some "k") exArt llmBoom (some ⟨none, some "hi", none⟩)
      (defaultSystemPrompt ++ "\n\n---\n\n" ++ "hi") (by decide)).2
      "connection reset" rfl⟩

/-- C7 (amended): for any request that reaches the summarization call, the
prompt begins with the `context` value stripped of surrounding whitespace when
that field is non-blank, and with the fixed default instruction when it is
absent. -/
theorem claim_C7 (k : Option String) (ex : String → ExtractResult)
    (llm : String → LLMResult) (d : Req) (p : String)
    (hreach : (send_api k ex llm (some d)).llmPrompt = some p) :
    (∀ c, d.context = some c → pyStrip c ≠ "" → ∃ r, p = pyStrip c ++ r) ∧
    (d.context = none → ∃ r, p = defaultSystemPrompt ++ r) :=
  context_prefix_of_reach k ex llm d p hreach

/-- C7 counterexample: supplying the non-blank context `" X"` produces the
prompt `"X\n\n---\n\nhi"`, which does not begin with `" X"` itself — the
handler strips the context before prefixing it. -/
theorem claim_C7_counterexample :
    (send_api (some "k") exArt llmEcho
        (some { text := some "hi", context := some " X" })).llmPrompt =
      some "X\n\n---\n\nhi" ∧
    ¬ ∃ r, "X\n\n---\n\nhi" = " X" ++ r := by
  constructor
  · decide
  · rintro ⟨r, hr⟩
    have h2 := congrArg String.data hr
    rw [String.data_append] at h2
    simp at h2

/-- C7 witness: with the already-stripped context `"X"` the prompt does begin
with the (stripped) context. -/
theorem claim_C7_witness :
    ∃ r, ("X\n\n---\n\nhi" : String) = pyStrip "X" ++ r :=
  (claim_C7 (some "k") exArt llmEcho ⟨none, some "hi", some "X"⟩
    "X\n\n---\n\nhi" (by decide)).1 "X" rfl (by decide)

/-- C8 (amended): for any request that reaches the summarization call and gets
a non-raising completion back, the response is 200; `processed_text` equals the
message's content whenever `choices[0].message` is present (so JSON null when
that content is null), and equals the fixed placeholder exactly when the
completion has no choices or no message. -/
theorem claim_C8 (k : Option String) (ex : String → ExtractResult)
    (llm : String → LLMResult) (data : Option Req) (p : String)
    (hreach : (send_api k ex llm data).llmPrompt = some p) :
    (∀ c, llm p = .ok (some c) →
      (send_api k ex llm data).status = 200 ∧
      (send_api k ex llm data).body = .success successMessage c) ∧
    (llm p = .ok none →
      (send_api k ex llm data).status = 200 ∧
      (send_api k ex llm data).body =
        .success successMessage (some noContentPlaceholder)) := by
  obtain ⟨d, rt, rfl, rfl, eu, heq⟩ := send_api_reach k ex llm data p hreach
  rw [heq]
  constructor
  · intro c hm
    simp [callLLM, hm]
  · intro hm
    simp [callLLM, hm]

/-- C8 counterexample: a completion whose message is present but whose
`content` is null yields a 200 response with `processed_text = null` — the API
returned no content, yet the placeholder is not used, contradicting the claim
that the placeholder appears whenever the API returns no content. -/
theorem claim_C8_counterexample :
    send_api (some "k") exArt llmNullContent (some { text := some "hi" }) =
      ⟨200, .success successMessage none, none,
        some (defaultSystemPrompt ++ "\n\n---\n\nhi")⟩ ∧
    Body.success successMessage none ≠
      Body.success successMessage (some noContentPlaceholder) := by
  constructor
  · decide
  · decide

/-- C8 witness: string content is passed through, and a choiceless completion
yields the placeholder. -/
theorem claim_C8_witness :
    ((send_api (some "k") exArt llmEcho (some ⟨none, some "hi", none⟩)).status = 200 ∧
      (send_api (some "k") exArt llmEcho (some ⟨none, some "hi", none⟩)).body =
        .success successMessage (some "SUMMARY")) ∧
    ((send_api (some "k") exArt llmNothing (some ⟨none, some "hi", none⟩)).status = 200 ∧
      (send_api (some "k") exArt llmNothing (some ⟨none, some "hi", none⟩)).body =
        .success successMessage (some noContentPlaceholder)) :=
  ⟨(claim_C8 (some "k") exArt llmEcho (some ⟨none, some "hi", none⟩)
      (defaultSystemPrompt ++ "\n\n---\n\n" ++ "hi") (by decide)).1
      (some "SUMMARY") rfl,
   (claim_C8 (some "k") exArt llmNothing (some ⟨none, some "hi", none⟩)
      (defaultSystemPrompt ++ "\n\n---\n\n" ++ "hi") (by decide)).2 rfl⟩

/-- C9: a `context` field that is present but blank (empty or
whitespace-only) selects the default system prompt and leaves the whole
response exactly as if `context` were absent. -/
theorem claim_C9 (k : Option String) (ex : String → ExtractResult)
    (llm : String → LLMResult) (d : Req) (c : String)
    (hc : d.context = some c) (hblank : pyStrip c = "") :
    systemPromptOf d = defaultSystemPrompt ∧
    send_api k ex llm (some d) =
      send_api k ex llm (some { d with context := none }) := by
  obtain ⟨u, t, ctx⟩ := d
  simp only [Req.context] at hc
  subst hc
  have hsp : systemPromptOf ⟨u, t, some c⟩ = defaultSystemPrompt := by
    simp [systemPromptOf, hblank]
  refine ⟨hsp, ?_⟩
  simp only [send_api, fullPromptOf, hsp]
  have hsp' : systemPromptOf ⟨u, t, none⟩ = defaultSystemPrompt := by
    simp [systemPromptOf]
  simp [hsp']

/-- C9 witness: a whitespace-only context behaves like an absent one. -/
theorem claim_C9_witness :
    systemPromptOf ⟨none, some "hi", some "   "⟩ = defaultSystemPrompt ∧
    send_api (some "k") exArt llmEcho (some ⟨none, some "hi", some "   "⟩) =
      send_api (some "k") exArt llmEcho (some ⟨none, some "hi", none⟩) :=
  claim_C9 (some "k") exArt llmEcho ⟨none, some "hi", some "   "⟩ "   " rfl
    (by decide)

/-- C10: on the `text` branch the raw `text` value is forwarded with its
surrounding whitespace intact, while the `url` value is stripped before being
handed to the extractor and the `context` value is stripped before prefixing
the prompt. -/
theorem claim_C10 (k : String) (ex : String → ExtractResult)
    (llm : String → LLMResult) (hk : k ≠ "") :
    (∀ d t, nonblank d.url = false → d.text = some t → t ≠ "DEBUG_MOCK" →
      pyStrip t ≠ "" →
      (send_api (some k) ex llm (some d)).llmPrompt =
        some (systemPromptOf d ++ "\n\n---\n\n" ++ t)) ∧
    (∀ d u, d.text ≠ some "DEBUG_MOCK" → d.url = some u → pyStrip u ≠ "" →
      (send_api (some k) ex llm (some d)).extractedUrl = some (pyStrip u)) ∧
    (∀ d c p, d.context = some c → pyStrip c ≠ "" →
      (send_api (some k) ex llm (some d)).llmPrompt = some p →
      ∃ r, p = pyStrip c ++ r) := by
  refine ⟨?_, ?_, ?_⟩
  · intro d t hu ht hmock hts
    simp only [nonblank] at hu
    simp [send_api, pyTruthy, hk, hmock, hu, ht, nonblank, hts,
      callLLM_llmPrompt, fullPromptOf]
  · intro d u hmock hurl hu
    rcases hex : ex (pyStrip u) with t | m
    · by_cases hts : pyStrip t = ""
      · simp [send_api, pyTruthy, hk, hmock, nonblank, hurl, hu, hex, hts]
      · simp [send_api, pyTruthy, hk, hmock, nonblank, hurl, hu, hex, hts,
          callLLM]
        rcases llm (fullPromptOf d t) with (_ | _) | _ | _ <;> simp
    · simp [send_api, pyTruthy, hk, hmock, nonblank, hurl, hu, hex]
  · intro d c p hc hcs hreach
    exact (context_prefix_of_reach (some k) ex llm d p hreach).1 c hc hcs

/-- C10 witness: `" hi "` is forwarded unstripped, `" u "` is stripped to
`"u"` before extraction, and the `" X"` context is stripped in the prompt. -/
theorem claim_C10_witness :
    (send_api (some "k") exArt llmEcho
        (some ⟨some "  ", some " hi ", none⟩)).llmPrompt =
      some (systemPromptOf ⟨some "  ", some " hi ", none⟩ ++
        "\n\n---\n\n" ++ " hi ") ∧
    (send_api (some "k") exArt llmEcho
        (some ⟨some " u ", none, none⟩)).extractedUrl = some (pyStrip " u ") ∧
    ∃ r, ("X\n\n---\n\nhi" : String) = pyStrip " X" ++ r :=
  ⟨(claim_C10 "k" exArt llmEcho (by decide)).1 ⟨some "  ", some " hi ", none⟩
      " hi " (by decide) rfl (by decide) (by decide),
   (claim_C10 "k" exArt llmEcho (by decide)).2.1 ⟨some " u ", none, none⟩
      " u " (by decide) rfl (by decide),
   (claim_C10 "k" exArt llmEcho (by decide)).2.2 ⟨none, some "hi", some " X"⟩
      " X" "X\n\n---\n\nhi" rfl (by decide) (by decide)⟩

end App
